import Mathlib

/-!
Verification of the profile-editing validation and state logic of the
communiT client (src/pages/profile/edit-profile.tsx and
src/components/cards/my-profile.tsx).

JavaScript strings are sequences of UTF-16 code units; every length,
regex and trim operation in the source acts on code units.  We therefore
embed strings as `List Nat` of code units, with a conversion from Lean
string literals for concrete test inputs.
-/

/-- UTF-16 encoding of a single Unicode scalar value: one code unit for
BMP characters, a surrogate pair for astral characters. -/
def utf16OfChar (c : Char) : List Nat :=
  if c.toNat < 65536 then [c.toNat]
  else [55296 + (c.toNat - 65536) / 1024, 56320 + (c.toNat - 65536) % 1024]

/-- The UTF-16 code units of a string, the form in which JavaScript
operates on it. -/
def strUnits (s : String) : List Nat :=
  (s.toList.map utf16OfChar).flatten

/-- Code units removed by JavaScript `String.prototype.trim`: the
WhiteSpace and LineTerminator productions (TAB, LF, VT, FF, CR, SP,
NBSP, OGHAM SP, the Zs block 2000–200A, LS, PS, NNBSP, MMSP,
IDEOGRAPHIC SP, and ZWNBSP/BOM). -/
def isJsWhitespace (n : Nat) : Bool :=
  n = 0x9 || n = 0xA || n = 0xB || n = 0xC || n = 0xD || n = 0x20 ||
  n = 0xA0 || n = 0x1680 || (0x2000 ≤ n && n ≤ 0x200A) ||
  n = 0x2028 || n = 0x2029 || n = 0x202F || n = 0x205F ||
  n = 0x3000 || n = 0xFEFF

/-- JavaScript `String.prototype.trim`: strip leading and trailing
whitespace code units. -/
def jsTrim (s : List Nat) : List Nat :=
  ((s.dropWhile isJsWhitespace).reverse.dropWhile isJsWhitespace).reverse

/-- Character class `[a-zA-Z0-9가-힣]` of the nickname regex: ASCII
letters, ASCII digits, and precomposed Hangul syllables U+AC00–U+D7A3. -/
def isNickChar (n : Nat) : Bool :=
  (0x30 ≤ n && n ≤ 0x39) || (0x41 ≤ n && n ≤ 0x5A) ||
  (0x61 ≤ n && n ≤ 0x7A) || (0xAC00 ≤ n && n ≤ 0xD7A3)

/-- Embedding of `nicknameSchema` / `formSchema.userNickname`
(edit-profile.tsx lines 15–25 and 246–254):
`z.string().trim().nonempty(...).regex(/^[a-zA-Z0-9가-힣]*$/, ...).min(2, ...)`.
The zod `trim` transform rewrites the value, so the `nonempty`, `regex`
and `min` checks that follow all see the trimmed string; the anchored
regex matches exactly when every code unit lies in the class. -/
def nicknameAccepts (s : List Nat) : Bool :=
  let t := jsTrim s
  decide (1 ≤ t.length) && t.all isNickChar && decide (2 ≤ t.length)

/-- C1: the nickname validation accepts `s` iff `trim(s)` is non-empty,
every code unit of `trim(s)` is in `[a-zA-Z0-9가-힣]`, and `trim(s)` has
length at least 2; moreover "ab" is accepted, "a " is rejected (trims to
length 1), and "홍길동!" is rejected (the "!" falls outside the class). -/
theorem nickname_accepts_iff :
    (∀ s : List Nat,
      nicknameAccepts s = true ↔
        (jsTrim s ≠ [] ∧ (jsTrim s).all isNickChar = true ∧
          2 ≤ (jsTrim s).length)) ∧
    nicknameAccepts (strUnits "ab") = true ∧
    nicknameAccepts (strUnits "a ") = false ∧
    nicknameAccepts (strUnits "홍길동!") = false := by
  refine ⟨fun s => ?_, by decide, by decide, by decide⟩
  unfold nicknameAccepts
  simp only [Bool.and_eq_true, decide_eq_true_eq]
  constructor
  · rintro ⟨⟨h1, h2⟩, h3⟩
    exact ⟨List.ne_nil_of_length_pos h1, h2, h3⟩
  · rintro ⟨h1, h2, h3⟩
    exact ⟨⟨List.length_pos.mpr h1, h2⟩, h3⟩

/-- The metacharacter `.` of a flagless JavaScript regex: any code unit
except the line terminators LF, CR, LS, PS. -/
def jsDot (n : Nat) : Bool :=
  !(n = 0xA || n = 0xD || n = 0x2028 || n = 0x2029)

/-- The lookahead body `.*(.)\1\1` of the new-password regex, matched
from the start of the string: some run of `.`-matching units is followed
by three copies of one `.`-matching unit. -/
def lookaheadTriple : List Nat → Bool
  | a :: b :: c :: rest =>
      (jsDot a && (a == b) && (b == c)) ||
      (jsDot a && lookaheadTriple (b :: c :: rest))
  | _ => false

/-- Embedding of the newPassword regex test
`/^(?!.*(.)\1\1).*$/` (edit-profile.tsx lines 30–33 and 256–259).
Without flags, `^` anchors at the start of input, `$` matches only at
the end of input, and `.` never matches a line terminator, so the trailing
`.*$` consumes the whole string exactly when every unit is `.`-matching,
and the negative lookahead forbids a triple within the `.`-reachable
region. -/
def tripleRepeatOk (p : List Nat) : Bool :=
  !(lookaheadTriple p) && p.all jsDot

/-- A character (code unit) occurring 3 or more times consecutively
somewhere in the string — the property the spec attributes to the
triple-repeat check. -/
def hasTripleRepeat : List Nat → Bool
  | a :: b :: c :: rest =>
      ((a == b) && (b == c)) || hasTripleRepeat (b :: c :: rest)
  | _ => false

/-- When every unit of the string is `.`-matching, the lookahead scan
finds a triple exactly when the string has three equal consecutive
units. -/
theorem lookaheadTriple_eq_hasTripleRepeat (p : List Nat)
    (h : p.all jsDot = true) : lookaheadTriple p = hasTripleRepeat p := by
  induction p with
  | nil => rfl
  | cons a t ih =>
    cases t with
    | nil => rfl
    | cons b t2 =>
      cases t2 with
      | nil => rfl
      | cons c r =>
        simp only [List.all_cons, Bool.and_eq_true] at h
        obtain ⟨ha, hb, hc, hr⟩ := h
        have ih2 := ih (by simp [List.all_cons, hb, hc, hr])
        simp [lookaheadTriple, hasTripleRepeat, ha, ih2]

/-- C2 fails as stated: "ab\ncd" has no character tripled consecutively,
yet the new-password regex rejects it, because the flagless `.` of the
trailing `.*$` cannot match the newline and `$` only matches at the end
of input. -/
theorem tripleRepeat_claim_counterexample :
    hasTripleRepeat (strUnits "ab\ncd") = false ∧
    tripleRepeatOk (strUnits "ab\ncd") = false := by decide

/-- C2 (amended): the new-password triple-repeat check accepts `p` iff
`p` contains no line-terminator unit (LF, CR, LS, PS) and no single unit
occurs 3 or more times consecutively; in particular "aaabbbb1" is
rejected and "abcabcab" is accepted. -/
theorem tripleRepeatOk_iff_noTerminator_and_noTriple :
    (∀ p : List Nat,
      tripleRepeatOk p = (p.all jsDot && !hasTripleRepeat p)) ∧
    tripleRepeatOk (strUnits "aaabbbb1") = false ∧
    tripleRepeatOk (strUnits "abcabcab") = true := by
  refine ⟨fun p => ?_, by decide, by decide⟩
  unfold tripleRepeatOk
  cases h : p.all jsDot with
  | false => simp [h]
  | true => simp [h, lookaheadTriple_eq_hasTripleRepeat p h]

/-- The three fields of the password-change schema. -/
inductive PwField
  | currentPassword
  | newPassword
  | confirmPassword
deriving DecidableEq

/-- Input to the password-change validation: the three string fields as
entered. -/
structure PasswordForm where
  currentPassword : List Nat
  newPassword : List Nat
  confirmPassword : List Nat

/-- Error message of the 8-character minimum. -/
def msgMin8 : String := "비밀번호는 최소 8자 이상이어야 합니다."

/-- Error message of the triple-repeat regex. -/
def msgTriple : String := "같은 문자를 3번 이상 반복할 수 없습니다."

/-- Error message of the confirmation refinement. -/
def msgMismatch : String := "비밀번호가 일치하지 않습니다."

/-- Issues of `currentPassword: z.string().min(8, ...)` (line 29). -/
def currentPasswordIssues (p : List Nat) : List String :=
  if p.length < 8 then [msgMin8] else []

/-- Issues of `newPassword: z.string().min(8, ...).regex(..., ...)`
(lines 30–33): zod runs every check of the chain, collecting an issue
per failed check in order. -/
def newPasswordIssues (p : List Nat) : List String :=
  (if p.length < 8 then [msgMin8] else []) ++
  (if tripleRepeatOk p then [] else [msgTriple])

/-- Embedding of `passwordSchema.safeParse` on string inputs
(edit-profile.tsx lines 27–39): each object field is parsed with its own
checks, a failed check marking the result dirty without aborting; since
no string field aborts, the `.refine` then runs on the parsed data and,
when newPassword differs from confirmPassword, appends the mismatch
issue at path `['confirmPassword']`. The result is the list of issues
paired with the field each is attached to. -/
def passwordSchemaIssues (f : PasswordForm) : List (PwField × String) :=
  (currentPasswordIssues f.currentPassword).map
      (fun m => (PwField.currentPassword, m)) ++
  (newPasswordIssues f.newPassword).map
      (fun m => (PwField.newPassword, m)) ++
  (if f.newPassword = f.confirmPassword then []
   else [(PwField.confirmPassword, msgMismatch)])

/-- The messages attached to one field by password-change validation. -/
def issuesFor (f : PasswordForm) (fld : PwField) : List String :=
  (passwordSchemaIssues f).filterMap
    (fun i => if i.1 = fld then some i.2 else none)

/-- Issues attached to the current-password field are exactly its own
minimum-length issues. -/
theorem issuesFor_currentPassword (f : PasswordForm) :
    issuesFor f PwField.currentPassword =
      currentPasswordIssues f.currentPassword := by
  simp only [issuesFor, passwordSchemaIssues, List.filterMap_append,
    List.filterMap_map]
  simp [currentPasswordIssues, newPasswordIssues, Function.comp]
  split <;> simp

/-- Selecting a field's messages from a block labelled with that same
field keeps every message. -/
theorem filterMap_label_eq (fld : PwField) (l : List String) :
    List.filterMap
      ((fun i : PwField × String =>
          if i.1 = fld then some i.2 else none) ∘ fun m => (fld, m)) l
      = l := by
  induction l with
  | nil => rfl
  | cons a t ih => simpa [Function.comp, List.filterMap_cons] using ih

/-- Selecting a field's messages from a block labelled with a different
field yields nothing. -/
theorem filterMap_label_ne (k fld : PwField) (h : k ≠ fld)
    (l : List String) :
    List.filterMap
      ((fun i : PwField × String =>
          if i.1 = fld then some i.2 else none) ∘ fun m => (k, m)) l
      = [] := by
  induction l with
  | nil => rfl
  | cons a t ih => simp [Function.comp, List.filterMap_cons, h, ih]

/-- Issues attached to the new-password field are exactly its own
check-chain issues; neither the current-password checks nor the
confirmation refinement contribute to it. -/
theorem issuesFor_newPassword (f : PasswordForm) :
    issuesFor f PwField.newPassword = newPasswordIssues f.newPassword := by
  simp only [issuesFor, passwordSchemaIssues, List.filterMap_append,
    List.filterMap_map]
  rw [filterMap_label_ne _ _ (by decide), filterMap_label_eq]
  split <;> simp

/-- Issues attached to the confirm-password field are exactly the
mismatch issue of the refinement, present iff the two entries differ. -/
theorem issuesFor_confirmPassword (f : PasswordForm) :
    issuesFor f PwField.confirmPassword =
      if f.newPassword = f.confirmPassword then [] else [msgMismatch] := by
  simp only [issuesFor, passwordSchemaIssues, List.filterMap_append,
    List.filterMap_map]
  rw [filterMap_label_ne _ _ (by decide), filterMap_label_ne _ _ (by decide)]
  split <;> simp

/-- C3: the password-change confirmation check passes iff newPassword
equals confirmPassword; when it fails, the mismatch error is attached to
the confirm-password field only — the new-password field's issues are
exactly those of its own rules, untouched by the refinement. Scenario:
newPassword "password1" with confirmPassword "password2" puts the
mismatch message on the confirm field and no error on the new-password
field. -/
theorem confirmCheck_iff_equal_and_on_confirm_only :
    (∀ f : PasswordForm,
      (issuesFor f PwField.confirmPassword = [] ↔
        f.newPassword = f.confirmPassword) ∧
      issuesFor f PwField.newPassword = newPasswordIssues f.newPassword) ∧
    issuesFor ⟨strUnits "password123", strUnits "password1",
        strUnits "password2"⟩ PwField.confirmPassword = [msgMismatch] ∧
    issuesFor ⟨strUnits "password123", strUnits "password1",
        strUnits "password2"⟩ PwField.newPassword = [] := by
  refine ⟨fun f => ⟨?_, issuesFor_newPassword f⟩, by decide, by decide⟩
  rw [issuesFor_confirmPassword]
  split <;> simp_all

/-- C4: a field with no attached validation message satisfies its rule:
no current-password message means length ≥ 8, no new-password message
means length ≥ 8 and the triple-repeat regex passes, and no
confirm-password message means confirmPassword equals newPassword —
whatever the other fields contain. -/
theorem no_issue_implies_rule_satisfied (f : PasswordForm) :
    (issuesFor f PwField.currentPassword = [] →
      8 ≤ f.currentPassword.length) ∧
    (issuesFor f PwField.newPassword = [] →
      8 ≤ f.newPassword.length ∧ tripleRepeatOk f.newPassword = true) ∧
    (issuesFor f PwField.confirmPassword = [] →
      f.confirmPassword = f.newPassword) := by
  refine ⟨?_, ?_, ?_⟩
  · rw [issuesFor_currentPassword]
    unfold currentPasswordIssues
    split <;> simp_all
  · rw [issuesFor_newPassword]
    unfold newPasswordIssues
    intro h
    rcases List.append_eq_nil.mp h with ⟨h1, h2⟩
    constructor
    · by_contra hlt
      simp [Nat.lt_of_not_le hlt] at h1
    · by_contra hok
      simp [hok] at h2
  · rw [issuesFor_confirmPassword]
    split <;> simp_all

/-- Witness for C4 at a concrete form: the all-valid form
("password123", "abcdefgh", "abcdefgh") has no message on any field, and
the theorem recovers each field's rule there. -/
theorem no_issue_implies_rule_satisfied_witness :
    8 ≤ (strUnits "password123").length ∧
    (8 ≤ (strUnits "abcdefgh").length ∧
      tripleRepeatOk (strUnits "abcdefgh") = true) ∧
    (strUnits "abcdefgh" : List Nat) = strUnits "abcdefgh" :=
  ⟨(no_issue_implies_rule_satisfied
      ⟨strUnits "password123", strUnits "abcdefgh", strUnits "abcdefgh"⟩).1
      (by decide),
   (no_issue_implies_rule_satisfied
      ⟨strUnits "password123", strUnits "abcdefgh", strUnits "abcdefgh"⟩).2.1
      (by decide),
   (no_issue_implies_rule_satisfied
      ⟨strUnits "password123", strUnits "abcdefgh", strUnits "abcdefgh"⟩).2.2
      (by decide)⟩

/-- Embedding of `toggleCategory` (edit-profile.tsx lines 87–93 and
303–309): `prev.includes(category) ? prev.filter(c => c !== category)
: [...prev, category]`, written as the updater applied to the previous
selection list. -/
def toggleCategory (category : String) (prev : List String) : List String :=
  if category ∈ prev then prev.filter (fun c => c != category)
  else prev ++ [category]

/-- Membership after a toggle: each member either was already selected
or is the toggled label itself. -/
theorem mem_toggleCategory {x category : String} {prev : List String}
    (h : x ∈ toggleCategory category prev) : x ∈ prev ∨ x = category := by
  unfold toggleCategory at h
  split at h
  · rcases List.mem_filter.mp h with ⟨hx, _⟩
    exact Or.inl hx
  · rcases List.mem_append.mp h with hx | hx
    · exact Or.inl hx
    · exact Or.inr (List.mem_singleton.mp hx)

/-- C6: toggling the same label twice returns the selection to its
prior state under set semantics — membership is exactly the prior
membership, with no ordering guarantee claimed. -/
theorem toggleCategory_double_mem (prev : List String) (category x : String) :
    x ∈ toggleCategory category (toggleCategory category prev) ↔
      x ∈ prev := by
  unfold toggleCategory
  by_cases hc : category ∈ prev
  · have hnot : category ∉ prev.filter (fun c => c != category) := by
      intro h
      exact absurd rfl (bne_iff_ne.mp (List.mem_filter.mp h).2)
    simp only [hc, if_pos, hnot, if_neg, not_false_iff]
    constructor
    · intro h
      rcases List.mem_append.mp h with hx | hx
      · exact (List.mem_filter.mp hx).1
      · rw [List.mem_singleton.mp hx]; exact hc
    · intro hx
      by_cases hxc : x = category
      · exact List.mem_append.mpr (Or.inr (by simp [hxc]))
      · exact List.mem_append.mpr
          (Or.inl (List.mem_filter.mpr ⟨hx, bne_iff_ne.mpr hxc⟩))
  · have hin : category ∈ prev ++ [category] := by simp
    rw [if_neg hc, if_pos hin]
    constructor
    · intro h
      rcases List.mem_filter.mp h with ⟨hx, hne⟩
      rcases List.mem_append.mp hx with hx | hx
      · exact hx
      · exact absurd (List.mem_singleton.mp hx) (bne_iff_ne.mp hne)
    · intro hx
      refine List.mem_filter.mpr ⟨List.mem_append.mpr (Or.inl hx), ?_⟩
      exact bne_iff_ne.mpr (fun he => hc (he ▸ hx))

/-- The fixed list of offered category labels
(edit-profile.tsx line 44). -/
def categoryOptions : List String :=
  ["축구", "농구", "야구", "테니스", "스쿠버 다이빙", "수상스키", "런닝"]

/-- The combined form schema (lines 244–265) has no field for the
category selection, and the submit handler (lines 311–320) performs no
check on it, so validation attaches no message to any selection. -/
def categorySelectionIssues (_selected : List String) : List String := []

/-- The selection reached from the empty initial selection
(`useState<string[]>([])`, line 48) after a sequence of toggle
actions. -/
def runToggles (actions : List String) : List String :=
  actions.foldl (fun acc a => toggleCategory a acc) []

/-- Folding toggles over a selection keeps every member inside the label
pool the actions are drawn from. -/
theorem foldl_toggle_mem (actions : List String) :
    ∀ start : List String,
      (∀ a ∈ actions, a ∈ categoryOptions) →
      (∀ x ∈ start, x ∈ categoryOptions) →
      ∀ x ∈ actions.foldl (fun acc a => toggleCategory a acc) start,
        x ∈ categoryOptions := by
  induction actions with
  | nil => intro start _ hs x hx; exact hs x hx
  | cons a rest ih =>
    intro start ha hs x hx
    refine ih (toggleCategory a start) (fun b hb => ha b (List.mem_cons_of_mem a hb)) ?_ x hx
    intro y hy
    rcases mem_toggleCategory hy with hy | hy
    · exact hs y hy
    · exact hy ▸ ha a (List.mem_cons_self a rest)

/-- C7: after any sequence of toggle actions on offered labels, starting
from the empty selection, every selected label belongs to the fixed
7-label list, and the resulting selection carries no validation
issue. -/
theorem toggles_stay_in_options (actions : List String)
    (h : ∀ a ∈ actions, a ∈ categoryOptions) :
    (∀ x ∈ runToggles actions, x ∈ categoryOptions) ∧
    categorySelectionIssues (runToggles actions) = [] :=
  ⟨foldl_toggle_mem actions [] h (fun x hx => absurd hx (List.not_mem_nil x)),
   rfl⟩

/-- Witness for C7: the action sequence [축구, 축구, 런닝] is drawn from
the offered labels, and the selection it reaches stays inside the fixed
list with no validation issue. -/
theorem toggles_stay_in_options_witness :
    (∀ x ∈ runToggles ["축구", "축구", "런닝"], x ∈ categoryOptions) ∧
    categorySelectionIssues (runToggles ["축구", "축구", "런닝"]) = [] :=
  toggles_stay_in_options ["축구", "축구", "런닝"] (by decide)

/-- C10: the toggle preserves the no-duplicates invariant, and toggling
a label that is present removes every occurrence of it. -/
theorem toggleCategory_nodup_and_removes (prev : List String)
    (category : String) :
    (prev.Nodup → (toggleCategory category prev).Nodup) ∧
    (category ∈ prev → category ∉ toggleCategory category prev) := by
  constructor
  · intro hnd
    unfold toggleCategory
    split
    · exact hnd.filter _
    · rename_i hc
      simp [List.nodup_append, hnd, hc]
  · intro hc
    unfold toggleCategory
    rw [if_pos hc]
    intro h
    exact absurd rfl (bne_iff_ne.mp (List.mem_filter.mp h).2)

/-- Witness for C10 at the selection [축구, 런닝]: toggling 축구 keeps
the list duplicate-free and removes 축구. -/
theorem toggleCategory_nodup_and_removes_witness :
    (toggleCategory "축구" ["축구", "런닝"]).Nodup ∧
    "축구" ∉ toggleCategory "축구" ["축구", "런닝"] :=
  ⟨(toggleCategory_nodup_and_removes ["축구", "런닝"] "축구").1 (by decide),
   (toggleCategory_nodup_and_removes ["축구", "런닝"] "축구").2 (by decide)⟩

/-- The four registered fields of the combined edit form
(`useForm<FormData>`, lines 267 and 280–288). -/
structure FormFields where
  userNickname : List Nat
  password : List Nat
  newPassword : List Nat
  confirmPassword : List Nat
deriving DecidableEq

/-- The form before any typing: every registered field is empty, the
state `reset()` returns the fields to (no default values are supplied to
`useForm`). -/
def initialFormFields : FormFields := ⟨[], [], [], []⟩

/-- In-progress state of the combined single-form edit view: the image
draft and category selection held in `useState` (lines 272–273), the
form field values, the file input element's value, and the current
route. -/
structure EditProfileState where
  profileImage : String
  form : FormFields
  categories : List String
  fileInputValue : String
  route : String
deriving DecidableEq

/-- Embedding of `handleCancel` (edit-profile.tsx lines 322–330): set
the image draft to the empty string, `reset()` the form fields, navigate
to /my-profile, and clear the file input element. No statement in the
handler touches the `categories` state. -/
def handleCancel (s : EditProfileState) : EditProfileState :=
  { s with
    profileImage := ""
    form := initialFormFields
    route := "/my-profile"
    fileInputValue := "" }

/-- C5 fails as stated: from a state whose selection holds 축구,
invoking cancel leaves the category selection untouched rather than
resetting it to its initial empty value. -/
theorem handleCancel_claim_counterexample :
    (handleCancel ⟨"", initialFormFields, ["축구"], "", "/edit-profile"⟩).categories
      ≠ [] := by decide

/-- C5 (amended): invoking cancel clears the image draft, resets the
form fields to their initial empty values, clears the file input, and
returns the user to the profile view; the category selection state is
left unchanged by the handler (it disappears only because navigation
unmounts the component). -/
theorem handleCancel_resets_except_categories (s : EditProfileState) :
    handleCancel s =
      ⟨"", initialFormFields, s.categories, "", "/my-profile"⟩ := rfl

/-- Embedding of `handleImageChange` (lines 292–301) as far as the
synchronous event goes: with no file selected (`files?.[0]` undefined)
the handler does nothing and no read starts; with a file selected it
starts a read of that file and leaves the preview untouched until the
read completes. The result pairs the preview value after the handler
with the file handed to the reader, if any. -/
def handleImageChange (file : Option String) (profileImage : String) :
    String × Option String :=
  match file with
  | none => (profileImage, none)
  | some f => (profileImage, some f)

/-- Embedding of the reader's `onloadend` callback (lines 296–298):
`setProfileImage(reader.result)` replaces the preview value wholesale
with the data URL the read produced. -/
def readerLoadEnd (result : String) (_profileImage : String) : String :=
  result

/-- The default avatar placeholder (line 276). -/
def defaultImage : String := "https://example.com/my-default-image.png"

/-- Rendered avatar source (line 341): `profileImage || defaultImage`,
the empty draft being falsy. -/
def displayedAvatar (profileImage : String) : String :=
  if profileImage = "" then defaultImage else profileImage

/-- C8: a selection event with no file leaves the preview value
unchanged and starts no read, the empty draft displays the default
placeholder, and read completion replaces the preview with the data URL
regardless of — never merged with — the prior value. -/
theorem imageDraft_replaced_wholesale :
    (∀ img : String, handleImageChange none img = (img, none)) ∧
    displayedAvatar "" = defaultImage ∧
    (∀ result prior : String, readerLoadEnd result prior = result) := by
  exact ⟨fun _ => rfl, rfl, fun _ _ => rfl⟩

/-- Embedding of the live nickname-adequacy indicator (lines 378–384):
while no submit-time error is shown, the green check renders exactly
when `userNicknameValue.trim().length >= 2` for the watched value. -/
def nicknameIndicatorAdequate (v : List Nat) : Bool :=
  decide (2 ≤ (jsTrim v).length)

/-- C9: the live adequacy indicator depends only on the trimmed length
of the typed value — it is true exactly when that length is at least 2 —
so it shows adequate for "a!b!", a value the submit-time validation
rejects for its pattern. -/
theorem indicator_depends_only_on_trimmed_length :
    (∀ v : List Nat,
      (nicknameIndicatorAdequate v = true ↔ 2 ≤ (jsTrim v).length)) ∧
    (∀ v w : List Nat, (jsTrim v).length = (jsTrim w).length →
      nicknameIndicatorAdequate v = nicknameIndicatorAdequate w) ∧
    nicknameIndicatorAdequate (strUnits "a!b!") = true ∧
    nicknameAccepts (strUnits "a!b!") = false := by
  refine ⟨fun v => by simp [nicknameIndicatorAdequate], ?_, by decide, by decide⟩
  intro v w h
  simp [nicknameIndicatorAdequate, h]

/-- Witness for C9's dependence clause at the concrete values "ab" and
"cd", whose trimmed lengths agree. -/
theorem indicator_depends_only_on_trimmed_length_witness :
    nicknameIndicatorAdequate (strUnits "ab") =
      nicknameIndicatorAdequate (strUnits "cd") :=
  indicator_depends_only_on_trimmed_length.2.1
    (strUnits "ab") (strUnits "cd") (by decide)
